import Mathlib

/-!
Shallow embedding of `loafer/routes.py`: the `CircuitBreaker` state machine,
the `StubCircuitBreaker`, and the `Route` orchestration
(`apply_message_translator`, `run_handler`, `deliver`, `fetch_messages`),
together with theorems settling the specification claims about them.

Modelling conventions:
- Raw messages and handler results are modelled as strings; metadata maps as
  association lists.  Python string falsiness (`not content`) is `= ""`.
- Wall-clock time (`time.time()`) is an explicit `now : Nat` argument to the
  operations that read it; Python number falsiness of a timestamp is `= 0`.
- Python exceptions are values of `Exc`, carrying an exception class
  (`ExcClass`) and a message.  `except` clause matching is by class
  membership, in source order.
- Fallible code returns `Except Exc _`; mutation of the breaker is explicit
  state passing (operations return the updated breaker).
- Async plumbing (`await`, `run_in_executor`) is elided: both branches of
  `run_handler` invoke the handler with `(content, metadata)`, which is the
  observable behaviour the claims are about.
- Logging calls are no-ops, EXCEPT that their argument expressions are still
  evaluated, as in Python: the `logger.debug` call at routes.py line 121
  evaluates `self.circuit._failure_count`, and `Route` has no attribute
  `circuit` (the attribute is `circuit_breaker`), so that line raises
  `AttributeError` before `circuit_breaker.open` is reached.  The embedding
  reproduces this faithfully.
-/

namespace Loafer

/-- Raw messages, translated contents and handler results are strings. -/
abbrev Msg := String

/-- Metadata dictionaries, as association lists. -/
abbrev Metadata := List (String × String)

/-- Handler results. -/
abbrev HandlerResult := String

/-- Python exception classes relevant to `routes.py`: the `DeleteMessage`
control signal, `asyncio.CancelledError`, `ValueError` (raised by
`apply_message_translator`), `AttributeError` (raised by attribute lookup on
a missing attribute), and arbitrary user-defined classes `other n`. -/
inductive ExcClass where
  | deleteMessage
  | cancelledError
  | valueError
  | attributeError
  | other (n : Nat)
deriving DecidableEq, Repr

/-- A Python exception instance: its class and its message. -/
structure Exc where
  cls : ExcClass
  msg : String := ""
deriving DecidableEq, Repr

/-- `CircuitBreaker` (routes.py lines 12-45).  `_failure_count` and
`_last_failure_time` are class attributes defaulting to `0` and `None`.
`_raw_message` is the instance attribute assigned by `open` (line 40) and
read by `Route.fetch_messages` (line 163); it does not exist before the
first `open`, modelled as `none`.  `_breaker_message` is the distinct,
never-read attribute assigned by `close` (line 45). -/
structure CircuitBreaker where
  exceptions : List ExcClass
  failure_threshold : Nat := 5
  reset_timeout : Nat := 15
  _failure_count : Nat := 0
  _last_failure_time : Option Nat := none
  _raw_message : Option Msg := none
  _breaker_message : Option Msg := none
deriving DecidableEq, Repr

/-- The `state` property (routes.py lines 26-35).  Returns the health string
and the possibly-updated breaker: evaluating the half-open branch refreshes
`_last_failure_time` to `now` (line 32).  The Python guard is
`self._last_failure_time and (time.time() - self._last_failure_time) > self.reset_timeout`:
a `None` or `0` timestamp is falsy and falls through to `'open'`. -/
def CircuitBreaker.state (b : CircuitBreaker) (now : Nat) :
    String × CircuitBreaker :=
  if b._failure_count < b.failure_threshold then
    ("closed", b)
  else
    match b._last_failure_time with
    | some t =>
        if t ≠ 0 ∧ now - t > b.reset_timeout then
          ("half-open", { b with _last_failure_time := some now })
        else
          ("open", b)
    | none => ("open", b)

/-- `open(message)` (routes.py lines 37-40): increments `_failure_count`,
sets `_last_failure_time` to now, stores the message in `_raw_message`.
Named `openBreaker` because `open` is a Lean keyword. -/
def CircuitBreaker.openBreaker (b : CircuitBreaker) (now : Nat) (message : Msg) :
    CircuitBreaker :=
  { b with
    _failure_count := b._failure_count + 1
    _last_failure_time := some now
    _raw_message := some message }

/-- `close()` (routes.py lines 42-45): resets `_failure_count` to 0, clears
`_last_failure_time`, and assigns `None` to `_breaker_message` — NOT to
`_raw_message`, the attribute that `open` writes and `fetch_messages`
reads.  The embedding reproduces the source exactly. -/
def CircuitBreaker.close (b : CircuitBreaker) : CircuitBreaker :=
  { b with
    _failure_count := 0
    _last_failure_time := none
    _breaker_message := none }

/-- A route's breaker is either a real `CircuitBreaker` or the
`StubCircuitBreaker` (routes.py lines 48-60) bound when the route is
constructed without one. -/
inductive Breaker where
  | real (b : CircuitBreaker)
  | stub
deriving DecidableEq, Repr

/-- `circuit_breaker.exceptions`: the stub has an empty tuple (line 50). -/
def Breaker.exceptions : Breaker → List ExcClass
  | .real b => b.exceptions
  | .stub => []

/-- `circuit_breaker.state`: the stub is permanently `'closed'` (lines 52-54). -/
def Breaker.state : Breaker → Nat → String × Breaker
  | .real b, now => let p := b.state now; (p.1, .real p.2)
  | .stub, _ => ("closed", .stub)

/-- `circuit_breaker.close()`: no-op on the stub (lines 59-60). -/
def Breaker.close : Breaker → Breaker
  | .real b => .real b.close
  | .stub => .stub

/-- The `_raw_message` attribute as read by `fetch_messages`; `none` means
the attribute does not exist (never assigned), so reading it raises
`AttributeError`. -/
def Breaker.rawMessage : Breaker → Option Msg
  | .real b => b._raw_message
  | .stub => none

/-- A translator's return value: `translate(content)` yields a dict with a
`content` entry and (optionally, via `translated.get('metadata', {})`) a
metadata dict. -/
structure Translated where
  content : Msg
  metadata : Metadata := []
deriving DecidableEq, Repr

/-- The processed-message dict `{'content': ..., 'metadata': ...}` built by
`apply_message_translator`. -/
structure ProcessedMessage where
  content : Msg
  metadata : Metadata
deriving DecidableEq, Repr

/-- `Route` after construction (routes.py lines 63-91): the fields the
delivery and fetch operations read.  The provider is modelled by the
sequence its `fetch_messages()` returns; the translator by the function its
`translate` computes. -/
structure Route where
  name : String := "default"
  enabled : Bool := true
  circuit_breaker : Breaker := .stub
  provider_messages : List Msg := []
  message_translator : Option (Msg → Translated) := none
  handler : Msg → Metadata → Except Exc HandlerResult

/-- `apply_message_translator` (routes.py lines 97-109): wraps the raw
message as `{'content': message, 'metadata': {}}`; with no translator bound
returns that unchanged.  Otherwise the translator runs on the content, its
metadata is merged into the (empty) metadata dict, its content replaces the
content, and an empty resulting content raises `ValueError` (line 107). -/
def Route.apply_message_translator (r : Route) (message : Msg) :
    Except Exc ProcessedMessage :=
  let processed : ProcessedMessage := { content := message, metadata := [] }
  match r.message_translator with
  | none => .ok processed
  | some translate =>
      let translated := translate processed.content
      let processed : ProcessedMessage :=
        { content := translated.content
          metadata := processed.metadata ++ translated.metadata }
      if processed.content = "" then
        .error { cls := .valueError
                 msg := "failed to translate message=" ++ message }
      else
        .ok processed

/-- `run_handler` (routes.py lines 132-141): applies the translator, then
invokes the handler with `(content, metadata)` — directly when it is a
coroutine function, through the executor otherwise; both reduce to one
invocation here. -/
def Route.run_handler (r : Route) (raw_message : Msg) :
    Except Exc HandlerResult := do
  let message ← r.apply_message_translator raw_message
  r.handler message.content message.metadata

/-- The value `deliver` returns: Python `False` for a disabled route, or the
handler's result. -/
inductive DeliverOutcome where
  | notDelivered
  | delivered (result : HandlerResult)
deriving DecidableEq, Repr

/-- The `AttributeError` raised at routes.py line 121: the debug-log
argument evaluates `self.circuit._failure_count`, and `Route` has no
attribute `circuit`. -/
def circuitAttributeError : Exc :=
  { cls := .attributeError
    msg := "Route object has no attribute circuit" }

/-- `deliver` (routes.py lines 111-130).  Disabled routes return `False`
(line 114).  A `DeleteMessage` or `CancelledError` from the handler is
re-raised untouched (lines 118-119).  An exception whose class is in
`circuit_breaker.exceptions` enters the breaker clause (line 120), whose
first statement — the `logger.debug` call at line 121 — evaluates
`self.circuit._failure_count` and raises `AttributeError`, so lines 122-125
(`open`, the state check, the recursive retry, the re-raise) are
unreachable.  Any other exception propagates.  On success the breaker is
closed and the result returned (lines 128-130).  The returned breaker is
the route's breaker after the call. -/
def Route.deliver (r : Route) (raw_message : Msg) :
    Except Exc DeliverOutcome × Breaker :=
  if !r.enabled then
    (.ok .notDelivered, r.circuit_breaker)
  else
    match r.run_handler raw_message with
    | .ok result => (.ok (.delivered result), r.circuit_breaker.close)
    | .error e =>
        if e.cls = .deleteMessage ∨ e.cls = .cancelledError then
          (.error e, r.circuit_breaker)
        else if e.cls ∈ r.circuit_breaker.exceptions then
          (.error circuitAttributeError, r.circuit_breaker)
        else
          (.error e, r.circuit_breaker)

/-- `fetch_messages` (routes.py lines 155-165): reads the breaker state once
(with its half-open side effect), then — `if self.circuit_breaker:` is
always true, both breaker classes being truthy objects — returns `[]` when
open, `[self.circuit_breaker._raw_message]` when half-open (raising
`AttributeError` if that attribute was never assigned), and the provider's
result otherwise.  Returns the fetched list and the breaker after the call. -/
def Route.fetch_messages (r : Route) (now : Nat) :
    Except Exc (List Msg) × Breaker :=
  let p := r.circuit_breaker.state now
  if p.1 = "open" then
    (.ok [], p.2)
  else if p.1 = "half-open" then
    match p.2.rawMessage with
    | some m => (.ok [m], p.2)
    | none =>
        (.error { cls := .attributeError
                  msg := "CircuitBreaker object has no attribute raw_message" },
         p.2)
  else
    (.ok r.provider_messages, p.2)

/-- A value found in a `handle` attribute: whether it is callable and
whether it is truthy. -/
structure HandleAttr where
  callable : Bool
  truthy : Bool
deriving DecidableEq, Repr

/-- A `handler` argument to `Route.__init__`, abstracted to what lines 84-91
inspect: whether `callable(handler)` holds, whether the handler object
itself is truthy, and what `getattr(handler, 'handle', None)` returns. -/
structure HandlerArg where
  callable : Bool
  truthy : Bool
  handle : Option HandleAttr
deriving DecidableEq, Repr

/-- Handler resolution in `Route.__init__` (routes.py lines 84-91): a
callable handler is assigned to `self.handler` as-is, a non-callable one
contributes `self.handler = getattr(handler, 'handle', None)`, and then
`assert self.handler` (line 91) checks the TRUTHINESS of whatever was
assigned — the handler object itself in the callable branch, the `handle`
attribute (with `None`, i.e. a missing attribute, falsy) in the other;
callability of the attribute is never checked.  Returns whether
construction succeeds. -/
def resolveHandler (h : HandlerArg) : Bool :=
  if h.callable then
    h.truthy
  else
    match h.handle with
    | none => false
    | some a => a.truthy

/-- Modelled from the words of the specification (for comparison with
`resolveHandler` only, never used as the authority): construction succeeds
exactly when the handler is itself callable or exposes a CALLABLE `handle`
operation. -/
def handlerSpecOk (h : HandlerArg) : Prop :=
  h.callable = true ∨ ∃ a, h.handle = some a ∧ a.callable = true

/-- A sequence of `open(message)` calls, each with the wall-clock time at
which it happens. -/
def openAll (b : CircuitBreaker) : List (Nat × Msg) → CircuitBreaker
  | [] => b
  | c :: rest => openAll (b.openBreaker c.1 c.2) rest

/-! ## Helper lemmas -/

lemma openAll_failure_count (cs : List (Nat × Msg)) (b : CircuitBreaker) :
    (openAll b cs)._failure_count = b._failure_count + cs.length := by
  induction cs generalizing b with
  | nil => simp [openAll]
  | cons c rest ih =>
      simp only [openAll, ih, CircuitBreaker.openBreaker, List.length_cons]
      omega

lemma openAll_failure_threshold (cs : List (Nat × Msg)) (b : CircuitBreaker) :
    (openAll b cs).failure_threshold = b.failure_threshold := by
  induction cs generalizing b with
  | nil => rfl
  | cons c rest ih => simp only [openAll, ih, CircuitBreaker.openBreaker]

lemma openAll_reset_timeout (cs : List (Nat × Msg)) (b : CircuitBreaker) :
    (openAll b cs).reset_timeout = b.reset_timeout := by
  induction cs generalizing b with
  | nil => rfl
  | cons c rest ih => simp only [openAll, ih, CircuitBreaker.openBreaker]

lemma openAll_last_failure_time (cs : List (Nat × Msg)) (b : CircuitBreaker) :
    (openAll b cs)._last_failure_time = b._last_failure_time ∨
      ∃ c ∈ cs, (openAll b cs)._last_failure_time = some c.1 := by
  induction cs generalizing b with
  | nil => exact Or.inl rfl
  | cons c rest ih =>
      rcases ih (b.openBreaker c.1 c.2) with h | ⟨c2, hc2, h⟩
      · exact Or.inr ⟨c, List.mem_cons_self c rest, h⟩
      · exact Or.inr ⟨c2, List.mem_cons_of_mem c hc2, h⟩

lemma state_closed (b : CircuitBreaker) (now : Nat)
    (h : b._failure_count < b.failure_threshold) :
    b.state now = ("closed", b) := by
  unfold CircuitBreaker.state
  rw [if_pos h]

lemma state_tripped (b : CircuitBreaker) (now t : Nat)
    (hT : b.failure_threshold ≤ b._failure_count)
    (hl : b._last_failure_time = some t) :
    b.state now =
      if t ≠ 0 ∧ now - t > b.reset_timeout then
        ("half-open", { b with _last_failure_time := some now })
      else
        ("open", b) := by
  unfold CircuitBreaker.state
  rw [if_neg (Nat.not_lt.mpr hT), hl]

lemma state_tripped_no_time (b : CircuitBreaker) (now : Nat)
    (hT : b.failure_threshold ≤ b._failure_count)
    (hl : b._last_failure_time = none) :
    b.state now = ("open", b) := by
  unfold CircuitBreaker.state
  rw [if_neg (Nat.not_lt.mpr hT), hl]

lemma state_raw_message (b : CircuitBreaker) (now : Nat) :
    (b.state now).2._raw_message = b._raw_message := by
  by_cases h1 : b._failure_count < b.failure_threshold
  · rw [state_closed b now h1]
  · cases h2 : b._last_failure_time with
    | none => rw [state_tripped_no_time b now (Nat.not_lt.mp h1) h2]
    | some t =>
        rw [state_tripped b now t (Nat.not_lt.mp h1) h2]
        by_cases h3 : t ≠ 0 ∧ now - t > b.reset_timeout
        · rw [if_pos h3]
        · rw [if_neg h3]

lemma deliver_ok (r : Route) (raw : Msg) (res : HandlerResult)
    (he : r.enabled = true) (hh : r.run_handler raw = .ok res) :
    r.deliver raw = (.ok (.delivered res), r.circuit_breaker.close) := by
  unfold Route.deliver
  rw [he, hh]
  rfl

lemma deliver_error (r : Route) (raw : Msg) (e : Exc)
    (he : r.enabled = true) (hh : r.run_handler raw = .error e) :
    r.deliver raw =
      if e.cls = .deleteMessage ∨ e.cls = .cancelledError then
        (.error e, r.circuit_breaker)
      else if e.cls ∈ r.circuit_breaker.exceptions then
        (.error circuitAttributeError, r.circuit_breaker)
      else
        (.error e, r.circuit_breaker) := by
  unfold Route.deliver
  rw [he, hh]
  rfl

lemma apply_translator_empty (r : Route) (tr : Msg → Translated) (raw : Msg)
    (htr : r.message_translator = some tr) (hempty : (tr raw).content = "") :
    r.apply_message_translator raw =
      .error { cls := .valueError
               msg := "failed to translate message=" ++ raw } := by
  unfold Route.apply_message_translator
  rw [htr]
  simp only [hempty]
  rfl

/-! ## Theorems settling the claims -/

/-- Claim C1 (code bug): the claim says a matched handler error makes
`deliver` call `circuitBreaker.open(rawMessage)` and then retry or re-raise
depending on the breaker health.  The code instead raises `AttributeError`
at routes.py line 121 (`self.circuit._failure_count`; the attribute is
`circuit_breaker`) before `open` is reached: at a concrete enabled route
whose breaker matches `ValueError` and whose handler raises `ValueError`,
`deliver` yields the `AttributeError` — not the handler error, with no
retry — and the breaker is unchanged, its failure count still 0. -/
theorem c1_matched_failure_raises_attribute_error :
    Route.deliver
      { enabled := true
        circuit_breaker := .real { exceptions := [.valueError] }
        handler := fun _ _ => .error { cls := .valueError, msg := "boom" } }
      "m1"
    = (.error circuitAttributeError,
       .real { exceptions := [.valueError] }) := by
  rfl

/-- Claim C2 (code bug): the claimed invariant — the stored failing message
(the `_raw_message` attribute that a half-open fetch returns) is present iff
the failure count is positive — is broken by `close()`: after
`open(5, "m1")` then `close()`, the failure count is 0 yet `_raw_message`
is still `some "m1"`, because `close` assigns `None` to the separately
named `_breaker_message` attribute (routes.py line 45) and never clears
`_raw_message`. -/
theorem c2_invariant_broken_by_close :
    ((({ exceptions := [.valueError] } : CircuitBreaker).openBreaker 5
        "m1").close)._failure_count = 0 ∧
    ((({ exceptions := [.valueError] } : CircuitBreaker).openBreaker 5
        "m1").close)._raw_message = some "m1" ∧
    ¬ (((({ exceptions := [.valueError] } : CircuitBreaker).openBreaker 5
        "m1").close)._raw_message.isSome
       ↔ 0 < ((({ exceptions := [.valueError] } : CircuitBreaker).openBreaker
        5 "m1").close)._failure_count) := by
  decide

/-- Claim C3 (code bug): at the failing input — one `open` recording
message `"m1"` at time 5, then `close()` — `close` does reset the failure
count to 0, clear `_last_failure_time`, and a second `close` changes
nothing (idempotence); but the stored message is NOT cleared:
`_raw_message` is still `some "m1"`, since `close` writes the never-read
`_breaker_message` attribute instead. -/
theorem c3_close_does_not_clear_stored_message :
    ((({ exceptions := [] } : CircuitBreaker).openBreaker 5
        "m1").close)._failure_count = 0 ∧
    ((({ exceptions := [] } : CircuitBreaker).openBreaker 5
        "m1").close)._last_failure_time = none ∧
    ((({ exceptions := [] } : CircuitBreaker).openBreaker 5
        "m1").close).close
      = ((({ exceptions := [] } : CircuitBreaker).openBreaker 5
        "m1").close) ∧
    ((({ exceptions := [] } : CircuitBreaker).openBreaker 5
        "m1").close)._raw_message = some "m1" := by
  decide

/-- Claim C4 (confirmed): with threshold `T`, `state` reads `"closed"`
when the failure count is below `T` (and is then a pure read); at or above
`T`, with a positive recorded last-failure time `t`, it reads `"open"`
while `now - t ≤ resetTimeout` and `"half-open"` once
`now - t > resetTimeout`, the half-open read refreshing the recorded time
to `now`; and from a fresh breaker, after exactly `T` consecutive `open`
calls none of which is `resetTimeout` in the past, the state reads
`"open"`. -/
theorem c4_state_health (b b0 : CircuitBreaker) (now t : Nat)
    (calls : List (Nat × Msg)) :
    (b._failure_count < b.failure_threshold → b.state now = ("closed", b)) ∧
    (b.failure_threshold ≤ b._failure_count → b._last_failure_time = some t →
      0 < t →
      ((now - t ≤ b.reset_timeout → b.state now = ("open", b)) ∧
       (b.reset_timeout < now - t →
          b.state now =
            ("half-open", { b with _last_failure_time := some now })))) ∧
    (b0._failure_count = 0 → b0._last_failure_time = none →
      calls.length = b0.failure_threshold →
      (∀ c ∈ calls, now - c.1 ≤ b0.reset_timeout) →
      ((openAll b0 calls).state now).1 = "open") := by
  refine ⟨fun h => state_closed b now h, fun hT hl hpos => ⟨?_, ?_⟩, ?_⟩
  · intro hle
    rw [state_tripped b now t hT hl,
        if_neg (fun hc => absurd hc.2 (by omega))]
  · intro hgt
    rw [state_tripped b now t hT hl, if_pos ⟨by omega, hgt⟩]
  · intro h0 hnone hlen hts
    have hcount := openAll_failure_count calls b0
    have hthr := openAll_failure_threshold calls b0
    have htim := openAll_reset_timeout calls b0
    have hT : (openAll b0 calls).failure_threshold
        ≤ (openAll b0 calls)._failure_count := by
      rw [hcount, hthr, h0, ← hlen]
      omega
    rcases openAll_last_failure_time calls b0 with hl | ⟨c, hc, hl⟩
    · rw [hnone] at hl
      rw [state_tripped_no_time (openAll b0 calls) now hT hl]
    · rw [state_tripped (openAll b0 calls) now c.1 hT hl,
          if_neg (fun hcon => absurd hcon.2 (by
            have := hts c hc
            rw [htim]
            omega))]

/-- Claim C4, witness: with the default threshold 5 and timeout 15, a
breaker with one failure reads closed; a tripped breaker last failed at
time 8 reads open at time 10 and half-open at time 30, the latter
refreshing the timestamp to 30; and five consecutive `open` calls from a
fresh breaker leave it reading open at time 9. -/
theorem c4_witness :
    ({ exceptions := [], _failure_count := 1 } : CircuitBreaker).state 10
      = ("closed", { exceptions := [], _failure_count := 1 }) ∧
    ({ exceptions := [], _failure_count := 5, _last_failure_time := some 8 } : CircuitBreaker).state 10
      = ("open",
         { exceptions := [], _failure_count := 5, _last_failure_time := some 8 }) ∧
    ({ exceptions := [], _failure_count := 5, _last_failure_time := some 8 } : CircuitBreaker).state 30
      = ("half-open",
         { exceptions := [], _failure_count := 5, _last_failure_time := some 30 }) ∧
    ((openAll { exceptions := [] }
        [(1, "a"), (2, "b"), (3, "c"), (4, "d"), (5, "e")]).state 9).1
      = "open" := by
  refine ⟨?_, ?_, ?_, ?_⟩
  · exact (c4_state_health { exceptions := [], _failure_count := 1 }
      { exceptions := [] } 10 0 []).1 (by decide)
  · exact ((c4_state_health
      { exceptions := [], _failure_count := 5, _last_failure_time := some 8 }
      { exceptions := [] } 10 8 []).2.1 (by decide) rfl (by decide)).1
      (by decide)
  · exact ((c4_state_health
      { exceptions := [], _failure_count := 5, _last_failure_time := some 8 }
      { exceptions := [] } 30 8 []).2.1 (by decide) rfl (by decide)).2
      (by decide)
  · exact (c4_state_health { exceptions := [] } { exceptions := [] } 9 0
      [(1, "a"), (2, "b"), (3, "c"), (4, "d"), (5, "e")]).2.2
      rfl rfl (by decide) (by decide)

/-- Claim C5 (confirmed): `fetch_messages` reads the breaker state once and
returns the empty sequence when it reads open, exactly the one-element
sequence holding the breaker's stored `_raw_message` when it reads
half-open (the provider is not consulted: the result does not involve
`provider_messages`), and the provider's fetch result unchanged when it
reads closed.  The route's breaker afterwards is the state read's updated
breaker in every case. -/
theorem c5_fetch_messages_by_health (r : Route) (b : CircuitBreaker)
    (now : Nat) (m : Msg) (hb : r.circuit_breaker = .real b) :
    ((b.state now).1 = "open" →
       r.fetch_messages now = (.ok [], .real (b.state now).2)) ∧
    ((b.state now).1 = "half-open" → b._raw_message = some m →
       r.fetch_messages now = (.ok [m], .real (b.state now).2)) ∧
    ((b.state now).1 = "closed" →
       r.fetch_messages now = (.ok r.provider_messages,
         .real (b.state now).2)) := by
  have hstate : r.circuit_breaker.state now
      = ((b.state now).1, .real (b.state now).2) := by
    rw [hb]
    rfl
  refine ⟨?_, ?_, ?_⟩
  · intro h
    simp only [Route.fetch_messages, hstate, h, if_pos]
  · intro h hm
    have hraw : (Breaker.real (b.state now).2).rawMessage = some m := by
      simp only [Breaker.rawMessage, state_raw_message, hm]
    simp only [Route.fetch_messages, hstate, h, hraw]
    rfl
  · intro h
    simp only [Route.fetch_messages, hstate, h]
    rfl

/-- Claim C5, witness: at a tripped breaker (count 5, last failure at 8)
the fetch at time 10 is empty; at a tripped breaker last failed at time 1
with stored message `"m1"`, the fetch at time 30 is exactly `["m1"]` even
though the provider holds `["p1", "p2"]`; at a fresh breaker the fetch is
the provider's `["p1", "p2"]` unchanged. -/
theorem c5_witness :
    Route.fetch_messages
      { circuit_breaker :=
          .real { exceptions := [], _failure_count := 5, _last_failure_time := some 8 }
        provider_messages := ["p1", "p2"]
        handler := fun _ _ => .ok "" } 10
      = (.ok [],
         .real { exceptions := [], _failure_count := 5, _last_failure_time := some 8 }) ∧
    Route.fetch_messages
      { circuit_breaker :=
          .real { exceptions := [], _failure_count := 5, _last_failure_time := some 1, _raw_message := some "m1" }
        provider_messages := ["p1", "p2"]
        handler := fun _ _ => .ok "" } 30
      = (.ok ["m1"],
         .real { exceptions := [], _failure_count := 5, _last_failure_time := some 30, _raw_message := some "m1" }) ∧
    Route.fetch_messages
      { circuit_breaker := .real { exceptions := [] }
        provider_messages := ["p1", "p2"]
        handler := fun _ _ => .ok "" } 7
      = (.ok ["p1", "p2"], .real { exceptions := [] }) := by
  refine ⟨?_, ?_, ?_⟩
  · exact (c5_fetch_messages_by_health _
      { exceptions := [], _failure_count := 5, _last_failure_time := some 8 }
      10 "" rfl).1 (by decide)
  · exact (c5_fetch_messages_by_health _
      { exceptions := [], _failure_count := 5, _last_failure_time := some 1, _raw_message := some "m1" }
      30 "m1" rfl).2.1 (by decide) rfl
  · exact (c5_fetch_messages_by_health _ { exceptions := [] } 7 ""
      rfl).2.2 (by decide)

/-- Claim C6, counterexample: the claim fails at a breaker whose
`failure_threshold` is 0 (a value the constructor accepts): a successful
delivery does call `close()` and return the handler's result, but the
breaker's health afterwards reads `"open"`, not `"closed"`, because the
count 0 is not below the threshold 0. -/
theorem c6_counterexample :
    (Route.deliver
      { enabled := true
        circuit_breaker := .real { exceptions := [], failure_threshold := 0 }
        handler := fun _ _ => .ok "done" } "m1").1
      = .ok (.delivered "done") ∧
    ((Route.deliver
      { enabled := true
        circuit_breaker := .real { exceptions := [], failure_threshold := 0 }
        handler := fun _ _ => .ok "done" } "m1").2.state 7).1
      ≠ "closed" := by
  refine ⟨rfl, ?_⟩
  decide

/-- Claim C6, amended: when the handler invocation inside `deliver`
completes without raising, `deliver` calls `circuit_breaker.close()` and
returns the handler's result; the breaker afterwards has failure count 0,
and its health reads `"closed"` PROVIDED the failure threshold is positive
(with threshold 0 a real breaker reads `"open"` even at count 0; the stub
breaker always reads `"closed"`). -/
theorem c6_success_closes_breaker (r : Route) (raw : Msg)
    (res : HandlerResult) (now : Nat)
    (he : r.enabled = true) (hh : r.run_handler raw = .ok res) :
    r.deliver raw = (.ok (.delivered res), r.circuit_breaker.close) ∧
    (∀ b, r.circuit_breaker = .real b →
       (r.deliver raw).2 = .real b.close ∧
       b.close._failure_count = 0 ∧
       (0 < b.failure_threshold →
          ((r.deliver raw).2.state now).1 = "closed")) ∧
    (r.circuit_breaker = .stub →
       ((r.deliver raw).2.state now).1 = "closed") := by
  have hdel := deliver_ok r raw res he hh
  refine ⟨hdel, ?_, ?_⟩
  · intro b hb
    rw [hdel, hb]
    refine ⟨rfl, rfl, fun hpos => ?_⟩
    have hclosed : b.close._failure_count < b.close.failure_threshold := by
      show 0 < b.failure_threshold
      exact hpos
    show ((Breaker.real b.close).state now).1 = "closed"
    simp only [Breaker.state, state_closed b.close now hclosed]
  · intro hb
    rw [hdel, hb]
    rfl

/-- Claim C6, witness: a successful delivery on an enabled route with a
default-threshold breaker returns the handler's result, closes the breaker,
and leaves its health reading closed. -/
theorem c6_witness :
    Route.deliver
      { enabled := true
        circuit_breaker := .real { exceptions := [.valueError] }
        handler := fun _ _ => .ok "r" } "x"
      = (.ok (.delivered "r"),
         (Breaker.real { exceptions := [.valueError] }).close) ∧
    ((Route.deliver
      { enabled := true
        circuit_breaker := .real { exceptions := [.valueError] }
        handler := fun _ _ => .ok "r" } "x").2.state 0).1 = "closed" := by
  have h := c6_success_closes_breaker
    { enabled := true
      circuit_breaker := .real { exceptions := [.valueError] }
      handler := fun _ _ => .ok "r" } "x" "r" 0 rfl rfl
  exact ⟨h.1, (h.2.1 { exceptions := [.valueError] } rfl).2.2 (by decide)⟩

/-- Claim C7 (confirmed): when the handler raises a `DeleteMessage` or
cancellation signal, `deliver` re-raises that exact error with the breaker
untouched — with no hypothesis on the matched-kinds set, so this holds even
when those classes are listed in it (the control-signal `except` clause
comes first); and when it raises any error whose class is not in the
matched-kinds set, `deliver` re-raises that exact error with the breaker
untouched.  In both cases the route's breaker afterwards is exactly the
breaker before, so the failure count, last-failure time and stored message
are unchanged, and no retry happens. -/
theorem c7_control_and_unmatched_bypass_breaker (r : Route) (raw : Msg)
    (e : Exc) (he : r.enabled = true)
    (hh : r.run_handler raw = .error e) :
    (e.cls = .deleteMessage ∨ e.cls = .cancelledError →
       r.deliver raw = (.error e, r.circuit_breaker)) ∧
    (e.cls ≠ .deleteMessage → e.cls ≠ .cancelledError →
       e.cls ∉ r.circuit_breaker.exceptions →
       r.deliver raw = (.error e, r.circuit_breaker)) := by
  have hdel := deliver_error r raw e he hh
  constructor
  · intro hor
    rw [hdel, if_pos hor]
  · intro h1 h2 h3
    rw [hdel, if_neg (fun hor => hor.elim h1 h2), if_neg h3]

/-- Claim C7, witness: a `DeleteMessage` raised by the handler propagates
with the breaker untouched even though `DeleteMessage` is listed in the
breaker's matched kinds; an unmatched error class propagates with the
breaker untouched. -/
theorem c7_witness :
    Route.deliver
      { enabled := true
        circuit_breaker := .real { exceptions := [.deleteMessage, .valueError] }
        handler := fun _ _ => .error { cls := .deleteMessage } } "x"
      = (.error { cls := .deleteMessage },
         .real { exceptions := [.deleteMessage, .valueError] }) ∧
    Route.deliver
      { enabled := true
        circuit_breaker := .real { exceptions := [.valueError] }
        handler := fun _ _ => .error { cls := .other 7, msg := "boom" } } "x"
      = (.error { cls := .other 7, msg := "boom" },
         .real { exceptions := [.valueError] }) := by
  constructor
  · exact (c7_control_and_unmatched_bypass_breaker
      { enabled := true
        circuit_breaker := .real { exceptions := [.deleteMessage, .valueError] }
        handler := fun _ _ => .error { cls := .deleteMessage } } "x"
      { cls := .deleteMessage } rfl rfl).1 (Or.inl rfl)
  · exact (c7_control_and_unmatched_bypass_breaker
      { enabled := true
        circuit_breaker := .real { exceptions := [.valueError] }
        handler := fun _ _ => .error { cls := .other 7, msg := "boom" } } "x"
      { cls := .other 7, msg := "boom" } rfl rfl).2
      (by decide) (by decide) (by decide)

/-- Claim C8, counterexample: the claimed distinctness of the
translation-error kind from handler-failure kinds fails at a concrete
input.  On a route whose translator returns empty content and whose
breaker's matched-kinds set is `[ValueError]` (with a handler that never
fails), `run_handler` raises the translation `ValueError` of routes.py
line 107; that class IS a member of the breaker's matched handler-failure
kinds, and `deliver` accordingly sends the translation failure through the
matched-handler-failure `except` clause at routes.py line 120 — reaching
the line-121 `AttributeError` — instead of propagating it as a distinct
kind. -/
theorem c8_counterexample :
    Route.run_handler
      { enabled := true
        circuit_breaker := .real { exceptions := [.valueError] }
        message_translator := some fun _ => { content := "" }
        handler := fun _ _ => .ok "never" } "x"
      = .error { cls := .valueError
                 msg := "failed to translate message=" ++ "x" } ∧
    ExcClass.valueError
      ∈ (Breaker.real { exceptions := [.valueError] }).exceptions ∧
    Route.deliver
      { enabled := true
        circuit_breaker := .real { exceptions := [.valueError] }
        message_translator := some fun _ => { content := "" }
        handler := fun _ _ => .ok "never" } "x"
      = (.error circuitAttributeError, .real { exceptions := [.valueError] }) := by
  refine ⟨rfl, ?_, rfl⟩
  exact List.mem_singleton.mpr rfl

/-- Claim C8, amended: with a translator bound whose result on the raw
message has empty content, `apply_message_translator` raises the
translation `ValueError` of routes.py line 107, `run_handler` propagates
exactly that error, and the handler is never invoked: the outcome is
identical for every possible handler.  The raised error is a plain
`ValueError`, NOT a kind distinct from handler-failure kinds — a breaker
whose matched set contains `ValueError` classifies it through the
matched-failure clause of `deliver` (see the counterexample). -/
theorem c8_empty_translation_fails_before_handler (r : Route)
    (tr : Msg → Translated) (raw : Msg)
    (htr : r.message_translator = some tr)
    (hempty : (tr raw).content = "") :
    r.apply_message_translator raw =
      .error { cls := .valueError
               msg := "failed to translate message=" ++ raw } ∧
    r.run_handler raw =
      .error { cls := .valueError
               msg := "failed to translate message=" ++ raw } ∧
    (∀ h2 : Msg → Metadata → Except Exc HandlerResult,
       Route.run_handler { r with handler := h2 } raw
         = r.run_handler raw) := by
  have happ := apply_translator_empty r tr raw htr hempty
  have hrun : r.run_handler raw =
      .error { cls := .valueError
               msg := "failed to translate message=" ++ raw } := by
    unfold Route.run_handler
    rw [happ]
    rfl
  refine ⟨happ, hrun, fun h2 => ?_⟩
  have happ2 := apply_translator_empty { r with handler := h2 } tr raw
    htr hempty
  have hrun2 : Route.run_handler { r with handler := h2 } raw =
      .error { cls := .valueError
               msg := "failed to translate message=" ++ raw } := by
    unfold Route.run_handler
    rw [happ2]
    rfl
  rw [hrun2, hrun]

/-- Claim C8, witness: a translator returning empty content on `"x"` makes
translation and delivery fail with the translation `ValueError`, and
swapping in a different handler changes nothing. -/
theorem c8_witness :
    Route.apply_message_translator
      { message_translator := some fun _ => { content := "" }
        handler := fun _ _ => .ok "never" } "x"
      = .error { cls := .valueError
                 msg := "failed to translate message=" ++ "x" } ∧
    Route.run_handler
      { message_translator := some fun _ => { content := "" }
        handler := fun _ _ => .ok "never" } "x"
      = .error { cls := .valueError
                 msg := "failed to translate message=" ++ "x" } ∧
    Route.run_handler
      { message_translator := some fun _ => { content := "" }
        handler := fun _ _ => .error { cls := .other 3 } } "x"
      = Route.run_handler
          { message_translator := some fun _ => { content := "" }
            handler := fun _ _ => .ok "never" } "x" := by
  have h := c8_empty_translation_fails_before_handler
    { message_translator := some fun _ => { content := "" }
      handler := fun _ _ => .ok "never" }
    (fun _ => { content := "" }) "x" rfl rfl
  exact ⟨h.1, h.2.1, h.2.2 fun _ _ => .error { cls := .other 3 }⟩

/-- Claim C9, counterexample: the claim fails in both directions at
concrete inputs.  A non-callable but truthy handler object whose `handle`
attribute is a truthy NON-callable value (e.g. a non-empty string
attribute) is accepted by `Route.__init__` — `resolveHandler` returns
`true` — although the claim says construction fails for every handler that
is neither callable nor exposes a callable `handle` operation; and a
CALLABLE handler object whose own boolean value is falsy (an object with
`__call__` and a `__bool__` returning `False`) is rejected by the
`assert self.handler` of routes.py line 91, although the claim says a
callable handler is accepted. -/
theorem c9_counterexample :
    (resolveHandler
      { callable := false, truthy := true
        handle := some { callable := false, truthy := true } } = true ∧
     ¬ handlerSpecOk
      { callable := false, truthy := true
        handle := some { callable := false, truthy := true } }) ∧
    (resolveHandler
      { callable := true, truthy := false, handle := none } = false ∧
     handlerSpecOk
      { callable := true, truthy := false, handle := none }) := by
  refine ⟨⟨rfl, ?_⟩, rfl, Or.inl rfl⟩
  rintro (h | ⟨a, ha, hc⟩)
  · exact Bool.false_ne_true h
  · cases ha
    exact Bool.false_ne_true hc

/-- Claim C9, amended: Route construction succeeds exactly when the value
the `assert self.handler` of routes.py line 91 sees is truthy — the handler
is callable and itself truthy, or it is non-callable and carries a TRUTHY
`handle` attribute.  Callability of the `handle` attribute is never
checked, and a falsy callable is rejected. -/
theorem c9_amended_truthiness_only (h : HandlerArg) :
    resolveHandler h = true ↔
      ((h.callable = true ∧ h.truthy = true) ∨
       (h.callable = false ∧ ∃ a, h.handle = some a ∧ a.truthy = true)) := by
  obtain ⟨c, t, ha⟩ := h
  cases c
  · cases ha with
    | none => simp [resolveHandler]
    | some a => simp [resolveHandler]
  · simp [resolveHandler]

/-- Claim C10 (confirmed): with no translator bound,
`apply_message_translator` never fails — every raw message, the empty one
included, is wrapped as `{content: rawMessage, metadata: {}}` — and
`run_handler` passes exactly that wrapping to the handler; the empty-content
guard at routes.py line 106 sits after the early return at line 101, so it
is never reached in the no-translator case. -/
theorem c10_no_translator_wraps_raw (r : Route) (raw : Msg)
    (ht : r.message_translator = none) :
    r.apply_message_translator raw = .ok { content := raw, metadata := [] } ∧
    r.run_handler raw = r.handler raw [] := by
  have happ : r.apply_message_translator raw
      = .ok { content := raw, metadata := [] } := by
    unfold Route.apply_message_translator
    rw [ht]
  refine ⟨happ, ?_⟩
  unfold Route.run_handler
  rw [happ]
  rfl

/-- Claim C10, witness: the degenerate empty raw message is wrapped and
reaches the handler in the no-translator case. -/
theorem c10_witness :
    Route.apply_message_translator
      { message_translator := none
        handler := fun c _ => .ok c } ""
      = .ok { content := "", metadata := [] } ∧
    Route.run_handler
      { message_translator := none
        handler := fun c _ => .ok c } ""
      = Route.handler
          { message_translator := none
            handler := fun c _ => .ok c } "" [] :=
  c10_no_translator_wraps_raw
    { message_translator := none, handler := fun c _ => .ok c } "" rfl

end Loafer
